import Mathlib

/-!
Shallow embedding of the credential/token lifecycle of the M365 MCP server.

The repository contains two revisions of the OAuth/token-store subsystem:

* src/mcp_m365 (delegated device-code flow, token file encrypted with
  Fernet under a PBKDF2-derived key), embedded below in namespace Mcp;
* src/sm_mcp_m365_python (app-only client-credentials flow with a
  certificate-signed JWT assertion, tokens kept in the macOS keychain),
  embedded below in namespace Sm.

Modelling conventions:

* Instants are integers (seconds since the epoch).  Python datetimes carry
  microseconds; every claim below only compares or offsets instants by whole
  seconds, where truncation by int() commutes with the offset.
* A Python value that may be None or a string is an Option String, and
  Python truthiness of such a value (used by the source in conditions such
  as if not tokens.refresh_token) is the function pyTruthy.
* Code that may raise returns Except PyExc; an except clause is an explicit
  match on the error constructor, so a catch is visible in the definition.
* Network exchanges are parameters: the outcome of one HTTP POST to the
  token endpoint is passed in as a value, and each auth operation returns,
  along with its result, the number of token-endpoint calls it performed.
-/

/-- Exception kinds raised by the modelled Python code paths.  ValueError and
AttributeError and KeyError are the built-in Python exceptions of those names;
credentialsMissing models the RuntimeError raised by Sm authenticate when
credentials are not configured, carrying the four Found/NOT-FOUND flags that
its message interpolates (for client_id, tenant_id, user_id and the
certificate thumbprint, in that order); runtimeError models the other
RuntimeErrors with their message. -/
inductive PyExc where
  | valueError
  | attributeError
  | keyError
  | typeError
  | credentialsMissing (clientIdFound tenantIdFound userIdFound certificateFound : Bool)
  | runtimeError (msg : String)
deriving DecidableEq

/-- Python truthiness of an optional string: None and the empty string are
falsy, every other string is truthy. -/
def pyTruthy : Option String → Bool
  | none => false
  | some s => s != ""

/-- Rendering of an optional string inside a Python f-string or str.format:
None renders as the text None. -/
def pyStr : Option String → String
  | none => "None"
  | some s => s

/-- Model of a Python string holding a datetime serialization, abstracted by
the outcome of datetime.fromisoformat on it (after the replace of Z by a
numeric offset done by the source): parses t stands for any string that
parses to the UTC instant t, which includes everything datetime.isoformat
produces; malformed stands for any string on which fromisoformat raises
ValueError, including the empty string. -/
inductive IsoStr where
  | parses (t : Int)
  | malformed
deriving DecidableEq

/-- Model of datetime.fromisoformat on an IsoStr: yields the instant, or
raises ValueError on a malformed string. -/
def fromisoformat : IsoStr → Except PyExc Int
  | .parses t => .ok t
  | .malformed => .error .valueError

/-- JSON values, as produced by json.loads.  Numbers are integers (the only
numeric field in the stored records is an expiry instant). -/
inductive Json where
  | null
  | bool (b : Bool)
  | num (n : Int)
  | str (s : String)
  | arr (elems : List Json)
  | obj (fields : List (String × Json))
deriving Inhabited

/-- Python subscript data[k] on a JSON value: KeyError when the key is
missing from a dict, TypeError when the value is not a dict. -/
def Json.item : Json → String → Except PyExc Json
  | .obj kvs, k =>
    match kvs.lookup k with
    | some v => .ok v
    | none => .error .keyError
  | _, _ => .error .typeError

/-- Python data.get(k, d) on a JSON value: the value under k, or the default
when the key is missing; AttributeError when the value is not a dict. -/
def Json.getDef : Json → String → Json → Except PyExc Json
  | .obj kvs, k, d => .ok ((kvs.lookup k).getD d)
  | _, _, _ => .error .typeError

/-- The body of both set_active_profile functions validates the candidate
against the keys of this statically configured table (identical in both
source revisions: profiles SM and SG). -/
def CREDENTIAL_PROFILES : List String := ["SM", "SG"]

/-- The set_active_profile function of both revisions (they are identical):
an unknown profile raises ValueError before the marker directory or file is
touched; a known profile is written to the marker file.  The state is the
marker file content (none when the file does not exist); the function
returns the raised-or-ok outcome together with the new marker state. -/
def set_active_profile (profile : String) (marker : Option String) :
    Except PyExc Unit × Option String :=
  if profile ∈ CREDENTIAL_PROFILES then (.ok (), some profile)
  else (.error .valueError, marker)

namespace Sm

/-- The Tokens dataclass of sm_mcp_m365_python/auth/token_store.py.  The
expires_at field is an ISO-format string in the source, modelled by IsoStr.
-/
structure Tokens where
  access_token : String
  refresh_token : String
  token_type : String
  expires_at : IsoStr
  scope : String
  user_email : Option String := none
  user_name : Option String := none
deriving DecidableEq

/-- The body of the try block of Tokens.is_expired: parse expires_at and
compare the current UTC instant against it (expired when now is at or past
the stored instant, the safety margin having been subtracted at mint time).
-/
def Tokens.is_expired_body (tk : Tokens) (now : Int) : Except PyExc Bool := do
  let e ← fromisoformat tk.expires_at
  pure (decide (now ≥ e))

/-- Tokens.is_expired of the source: the try body with an except clause that
turns ValueError and AttributeError into the answer True (an unreadable
expiry is treated as expired); any other exception would propagate. -/
def Tokens.is_expired (tk : Tokens) (now : Int) : Except PyExc Bool :=
  match tk.is_expired_body now with
  | .ok b => .ok b
  | .error .valueError => .ok true
  | .error .attributeError => .ok true
  | .error e => .error e

/-- A JSON dict as consumed by Tokens.from_dict, with one optional entry per
key the source reads: none means the key is absent (from_dict substitutes
the default), some v means the key is present with value v.  The source
stores present values into the dataclass without validating their types, so
only values of the field types appear here. -/
structure TokensDict where
  access_token : Option String := none
  refresh_token : Option String := none
  token_type : Option String := none
  expires_at : Option IsoStr := none
  scope : Option String := none
  user_email : Option (Option String) := none
  user_name : Option (Option String) := none
deriving DecidableEq

/-- Tokens.from_dict of the source: every field is read with data.get and a
default; the default for expires_at is the empty string, which is a
malformed IsoStr. -/
def Tokens.from_dict (d : TokensDict) : Tokens :=
  { access_token := d.access_token.getD ""
  , refresh_token := d.refresh_token.getD ""
  , token_type := d.token_type.getD ("Bearer")
  , expires_at := d.expires_at.getD .malformed
  , scope := d.scope.getD ""
  , user_email := d.user_email.getD none
  , user_name := d.user_name.getD none }

/-- The persisted keychain artifact for one profile, classified by what the
load path observes: rawMiss when the keychain lookup fails or yields an
empty string (if not data), notJson when json.loads raises JSONDecodeError,
jsonNonDict when json.loads succeeds but yields a non-dict value (the field
records the raw text, for instance the two-character string of an empty
JSON array), jsonDict when json.loads yields a dict. -/
inductive Artifact where
  | rawMiss
  | notJson
  | jsonNonDict (raw : String)
  | jsonDict (d : TokensDict)
deriving DecidableEq

/-- TokenStore.load of sm_mcp_m365_python/auth/token_store.py.  The except
clause catches only json.JSONDecodeError and KeyError.  A keychain miss and
undecodable JSON both yield None; but when json.loads yields a non-dict
value, Tokens.from_dict calls data.get on it, which raises AttributeError,
and that exception is not in the caught tuple, so it propagates. -/
def TokenStore.load (a : Artifact) : Except PyExc (Option Tokens) :=
  match a with
  | .rawMiss => .ok none
  | .notJson => .ok none
  | .jsonNonDict _ => .error .attributeError
  | .jsonDict d => .ok (some (Tokens.from_dict d))

/-- The credential material M365OAuth resolves from the keychain at
construction time: client_id, tenant_id and user_id under the names
Profile-M365-Client-ID and so on, plus the certificate thumbprint and the
PEM private key.  Each lookup yields None when the entry is missing. -/
structure Creds where
  client_id : Option String := none
  tenant_id : Option String := none
  user_id : Option String := none
  cert_thumbprint : Option String := none
  private_key : Option String := none
deriving DecidableEq

/-- M365OAuth auth_mode: certificate when both the thumbprint and the
private key are available (the private-key check is the truthiness test of
the keychain lookup result), none otherwise. -/
def auth_mode (c : Creds) : String :=
  if pyTruthy c.cert_thumbprint && pyTruthy c.private_key then "certificate"
  else "none"

/-- M365OAuth.is_configured of sm_mcp_m365_python/auth/oauth.py: client_id
and tenant_id present and auth_mode equal to certificate. -/
def is_configured (c : Creds) : Bool :=
  (pyTruthy c.client_id && pyTruthy c.tenant_id) && (auth_mode c == "certificate")

/-- The TOKEN_URL template instantiated with the tenant id, as done by
str.format (a None tenant renders as the text None). -/
def token_url (tenant_id : Option String) : String :=
  "https://login.microsoftonline.com/" ++ pyStr tenant_id ++ "/oauth2/v2.0/token"

/-- CLIENT_CREDENTIALS_SCOPE of the source. -/
def CLIENT_CREDENTIALS_SCOPE : String := "https://graph.microsoft.com/.default"

/-- A decoded client assertion: the JWT header fields and claims that
create_jwt_assertion signs.  The signature itself is produced by the
external jwt library over exactly these fields and is not modelled. -/
structure JwtAssertion where
  alg : String
  typ : String
  x5t_s256 : Option String
  iss : Option String
  sub : Option String
  aud : String
  jti : String
  nbf : Int
  exp : Int
deriving DecidableEq

/-- The header and payload construction inside create_jwt_assertion: alg
RS256, typ JWT, the x5t#S256 header set to the certificate thumbprint, iss
and sub both the client_id, aud the tenant token endpoint URL, the fresh
random jti passed in, nbf the current instant and exp ten minutes later. -/
def build_assertion (c : Creds) (now : Int) (jti : String) : JwtAssertion :=
  { alg := "RS256"
  , typ := "JWT"
  , x5t_s256 := c.cert_thumbprint
  , iss := c.client_id
  , sub := c.client_id
  , aud := token_url c.tenant_id
  , jti := jti
  , nbf := now
  , exp := now + 600 }

/-- M365OAuth create_jwt_assertion: raises RuntimeError when no private key
can be loaded from the keychain, otherwise signs and returns the assertion.
-/
def create_jwt_assertion (c : Creds) (now : Int) (jti : String) :
    Except PyExc JwtAssertion :=
  if pyTruthy c.private_key then .ok (build_assertion c now jti)
  else .error (.runtimeError ("Private key not found in keychain"))

/-- The JSON body of a 200 response from the token endpoint, with the fields
the source reads; optional fields are absent when the server omitted the
key (the source substitutes defaults with .get). -/
structure TokenResponse where
  access_token : String
  token_type : Option String := none
  expires_in : Option Int := none
  scope : Option String := none
  refresh_token : Option String := none
deriving DecidableEq

/-- The token built from a 200 response in M365OAuth.authenticate: the
expiry is stored as the isoformat of the acquisition instant plus
expires_in (default 3600) minus the 300-second safety margin; client
credentials never yields a refresh token, so that field is empty; the
user_email is the configured target user. -/
def mint (c : Creds) (now : Int) (r : TokenResponse) : Tokens :=
  { access_token := r.access_token
  , refresh_token := ""
  , token_type := r.token_type.getD ("Bearer")
  , expires_at := .parses (now + (r.expires_in.getD 3600 - 300))
  , scope := r.scope.getD CLIENT_CREDENTIALS_SCOPE
  , user_email := c.user_id
  , user_name := none }

/-- M365OAuth.authenticate of sm_mcp_m365_python/auth/oauth.py.  The resp
parameter is the outcome of the single POST to the token endpoint: ok with
the decoded 200 body, or error with the response text of a non-200 status.
The second component counts token-endpoint calls performed.  Not configured
raises before any network call, with the diagnostic flags its message
interpolates (note the certificate flag tests only the thumbprint); a
missing private key makes create_jwt_assertion raise, also before the POST;
a non-200 response raises RuntimeError after the one call. -/
def authenticate (c : Creds) (now : Int) (jti : String)
    (resp : Except String TokenResponse) : Except PyExc Tokens × Nat :=
  if !is_configured c then
    (.error (.credentialsMissing (pyTruthy c.client_id) (pyTruthy c.tenant_id)
       (pyTruthy c.user_id) (pyTruthy c.cert_thumbprint)), 0)
  else
    match create_jwt_assertion c now jti with
    | .error e => (.error e, 0)
    | .ok _ =>
      match resp with
      | .error body => (.error (.runtimeError ("Authentication failed (certificate): " ++ body)), 1)
      | .ok r => (.ok (mint c now r), 1)

/-- M365OAuth.get_valid_tokens of sm_mcp_m365_python/auth/oauth.py: load the
stored record; when absent or expired, run authenticate and persist its
result; otherwise return the stored record unchanged.  Takes the stored
record, returns (outcome, new stored record, token-endpoint calls).  An
exception from authenticate propagates and leaves the store unchanged. -/
def get_valid_tokens (c : Creds) (stored : Option Tokens) (now : Int)
    (jti : String) (resp : Except String TokenResponse) :
    Except PyExc (Option Tokens) × Option Tokens × Nat :=
  match stored with
  | some t =>
    match t.is_expired now with
    | .ok false => (.ok (some t), some t, 0)
    | .ok true =>
      match authenticate c now jti resp with
      | (.ok nt, n) => (.ok (some nt), some nt, n)
      | (.error e, n) => (.error e, some t, n)
    | .error e => (.error e, some t, 0)
  | none =>
    match authenticate c now jti resp with
    | (.ok nt, n) => (.ok (some nt), some nt, n)
    | (.error e, n) => (.error e, none, n)

/-- GraphClient user_path of sm_mcp_m365_python/graph/client.py: the
certificate flow always acts as the configured user, so the path prefix is
/users/{user_id}; without a configured user_id it raises. -/
def user_path (user_id : Option String) : Except PyExc String :=
  if pyTruthy user_id then .ok ("/users/" ++ pyStr user_id)
  else .error (.runtimeError ("No user_id configured. Certificate auth requires user_id in keychain."))

end Sm

namespace Mcp

/-- The credential material M365OAuth of mcp_m365/auth/oauth.py resolves
from the keychain (names m365-suffix-client-id and so on).  This revision
supports only the shared-secret material; it has no certificate fields. -/
structure Creds where
  client_id : Option String := none
  client_secret : Option String := none
  tenant_id : Option String := none
deriving DecidableEq

/-- M365OAuth.is_configured of mcp_m365/auth/oauth.py: the Python
all([client_id, client_secret, tenant_id]) over truthiness. -/
def is_configured (c : Creds) : Bool :=
  pyTruthy c.client_id && pyTruthy c.client_secret && pyTruthy c.tenant_id

/-- The TokenSet dataclass of mcp_m365/auth/token_store.py.  The expires_at
field is a Unix timestamp (a float in the source; the fractional part plays
no role in any claim, so instants are integers here). -/
structure TokenSet where
  access_token : String
  refresh_token : String
  expires_at : Int
  token_type : String
  scope : List String
  user_email : Option String := none
  user_name : Option String := none
deriving DecidableEq

/-- JSON encoding of an optional string: None encodes as null. -/
def optStrJson : Option String → Json
  | none => .null
  | some s => .str s

/-- TokenSet.to_dict of the source: the dict json.dumps serializes, one
entry per field in source order. -/
def TokenSet.to_dict (t : TokenSet) : Json :=
  .obj [ ("access_token", .str t.access_token)
       , ("refresh_token", .str t.refresh_token)
       , ("expires_at", .num t.expires_at)
       , ("token_type", .str t.token_type)
       , ("scope", .arr (t.scope.map .str))
       , ("user_email", optStrJson t.user_email)
       , ("user_name", optStrJson t.user_name) ]

/-- Reading a JSON value as a string field.  The Python dataclass stores any
value unvalidated; a non-string here is flagged as typeError purely as a
modelling device for a record that no longer has the declared field types.
The only consumer, TokenStore.load, catches every exception, so its
observable never-raises behaviour is unaffected by this choice. -/
def Json.asStr : Json → Except PyExc String
  | .str s => .ok s
  | _ => .error .typeError

/-- Reading a JSON value as an integer field (same modelling note as
Json.asStr). -/
def Json.asInt : Json → Except PyExc Int
  | .num n => .ok n
  | _ => .error .typeError

/-- Reading a list of JSON values as strings, element by element (same
modelling note as Json.asStr). -/
def strList : List Json → Except PyExc (List String)
  | [] => .ok []
  | j :: rest => do
    let s ← Json.asStr j
    let l ← strList rest
    pure (s :: l)

/-- Reading a JSON value as a list of strings (same modelling note as
Json.asStr). -/
def Json.asStrList : Json → Except PyExc (List String)
  | .arr xs => strList xs
  | _ => .error .typeError

/-- Reading a JSON value as an optional string, null decoding to None (same
modelling note as Json.asStr). -/
def Json.asOptStr : Json → Except PyExc (Option String)
  | .null => .ok none
  | .str s => .ok (some s)
  | _ => .error .typeError

/-- TokenSet.from_dict of the source: the four first fields are read with
subscripts (KeyError when missing), scope and the user fields with .get and
defaults. -/
def TokenSet.from_dict (j : Json) : Except PyExc TokenSet := do
  let a ← Json.asStr (← j.item ("access_token"))
  let rt ← Json.asStr (← j.item ("refresh_token"))
  let ea ← Json.asInt (← j.item ("expires_at"))
  let tt ← Json.asStr (← j.item ("token_type"))
  let sc ← Json.asStrList (← j.getDef ("scope") (.arr []))
  let ue ← Json.asOptStr (← j.getDef ("user_email") .null)
  let un ← Json.asOptStr (← j.getDef ("user_name") .null)
  pure { access_token := a, refresh_token := rt, expires_at := ea
       , token_type := tt, scope := sc, user_email := ue, user_name := un }

/-- TokenStore.save of mcp_m365/auth/token_store.py: serialize to_dict,
encrypt, overwrite the token file (the enc parameter is the Fernet cipher
over the serialized dict; directory creation and the chmod to owner-only do
not affect the stored value). -/
def TokenStore.save {β : Type} (enc : Json → β) (t : TokenSet) : Option β :=
  some (enc (TokenSet.to_dict t))

/-- TokenStore.load of mcp_m365/auth/token_store.py: None when the token
file does not exist; otherwise read, decrypt, json.loads and from_dict
inside a try whose except Exception clause returns None, so no failure of
decryption or parsing escapes.  The dec parameter is Fernet decryption
composed with json.loads: an error models InvalidToken on a corrupted or
undecryptable ciphertext as well as JSONDecodeError on unparseable
plaintext. -/
def TokenStore.load {β : Type} (dec : β → Except PyExc Json)
    (file : Option β) : Except PyExc (Option TokenSet) :=
  match file with
  | none => .ok none
  | some b =>
    match (do TokenSet.from_dict (← dec b)) with
    | .ok t => .ok (some t)
    | .error _ => .ok none

/-!
mcp_m365/auth/oauth.py constructs and consumes token records of the shape
of the Tokens dataclass (string expires_at read through is_expired(), a
string scope, a refresh_token), not of the TokenSet dataclass its own
token_store.py defines; the oauth functions below therefore operate on
Sm.Tokens, which is that shape.
-/

/-- The fetch of /me inside _fetch_user_info, which attaches the resolved
identity to a freshly acquired token: the parameter is none when the Graph
call failed or raised (every exception is swallowed and the token is
returned unchanged), or the (mail-or-userPrincipalName, displayName) pair
of a 200 response.  This is a Graph call, not a token-endpoint call, so it
does not count towards token-endpoint network calls. -/
def fetch_user_info (tk : Sm.Tokens)
    (userInfo : Option (Option String × Option String)) : Sm.Tokens :=
  match userInfo with
  | none => tk
  | some (em, nm) => { tk with user_email := em, user_name := nm }

/-- M365OAuth._refresh_tokens of mcp_m365/auth/oauth.py: one POST of
grant_type refresh_token; any non-200 status or exception yields None.  On
200 the new record keeps the old refresh token when the response carries
none, stores expiry as now plus expires_in (default 3600) minus the
300-second margin, then attaches user info.  The second component counts
token-endpoint calls: the function always attempts exactly one. -/
def refresh_tokens (old_refresh : String) (now : Int)
    (resp : Except Unit Sm.TokenResponse)
    (userInfo : Option (Option String × Option String)) :
    Option Sm.Tokens × Nat :=
  match resp with
  | .error _ => (none, 1)
  | .ok r =>
    let base : Sm.Tokens :=
      { access_token := r.access_token
      , refresh_token := r.refresh_token.getD old_refresh
      , token_type := r.token_type.getD ("Bearer")
      , expires_at := .parses (now + (r.expires_in.getD 3600 - 300))
      , scope := r.scope.getD ""
      , user_email := none
      , user_name := none }
    (some (fetch_user_info base userInfo), 1)

/-- M365OAuth.get_valid_tokens of mcp_m365/auth/oauth.py: absent record
returns None with no network call; an expired record triggers one refresh
attempt, persisted only on success (the stale record stays in the store on
failure); a present, unexpired record is returned unchanged with no network
call.  Returns (result, new stored record, token-endpoint calls). -/
def get_valid_tokens (stored : Option Sm.Tokens) (now : Int)
    (resp : Except Unit Sm.TokenResponse)
    (userInfo : Option (Option String × Option String)) :
    Except PyExc (Option Sm.Tokens) × Option Sm.Tokens × Nat :=
  match stored with
  | none => (.ok none, none, 0)
  | some t =>
    match t.is_expired now with
    | .ok true =>
      match refresh_tokens t.refresh_token now resp userInfo with
      | (some nt, n) => (.ok (some nt), some nt, n)
      | (none, n) => (.ok none, some t, n)
    | .ok false => (.ok (some t), some t, 0)
    | .error e => (.error e, some t, 0)

/-- One response of the token endpoint to a device-code poll, as the
polling loop discriminates it: a 200 body, or the OAuth error code of a
non-200 body (other carries the error_description of any unrecognised
code). -/
inductive PollResponse where
  | success (r : Sm.TokenResponse)
  | authorization_pending
  | slow_down
  | expired_token
  | authorization_declined
  | other (error_description : String)
deriving DecidableEq

/-- The token built in the 200 branch of poll_device_code: refresh token
and scope default to empty, expiry is now plus expires_in (default 3600)
minus the 300-second margin, then user info is attached. -/
def poll_success_tokens (now : Int) (r : Sm.TokenResponse)
    (userInfo : Option (Option String × Option String)) : Sm.Tokens :=
  fetch_user_info
    { access_token := r.access_token
    , refresh_token := r.refresh_token.getD ""
    , token_type := r.token_type.getD ("Bearer")
    , expires_at := .parses (now + (r.expires_in.getD 3600 - 300))
    , scope := r.scope.getD ""
    , user_email := none
    , user_name := none } userInfo

/-- Outcome of the polling loop.  The terminal errors mirror the four raise
statements of the source; serverSilent is the artefact of driving the loop
with a finite response list that ran out while the loop would continue. -/
inductive PollResult where
  | tokens (t : Sm.Tokens)
  | deviceCodeExpired
  | authorizationDeclined
  | authFailed (error_description : String)
  | timedOut
  | serverSilent
deriving DecidableEq

/-- M365OAuth.poll_device_code of mcp_m365/auth/oauth.py, driven by the
list of successive token-endpoint responses.  The loop runs while elapsed
is below timeout; each iteration sleeps for the current interval, adds it
to elapsed, then examines the response: success returns the minted token
(which the source also persists), authorization_pending continues with the
interval unchanged, slow_down adds 5 seconds to the interval and continues,
expired_token and authorization_declined raise terminal errors, any other
error code raises with its description.  Falling out of the loop raises the
timeout error.  now is the (frozen) clock used to stamp expiry on success.
-/
def poll_device_code (timeout now : Int)
    (userInfo : Option (Option String × Option String)) :
    List PollResponse → Int → Int → PollResult
  | responses, interval, elapsed =>
    if elapsed < timeout then
      match responses with
      | [] => .serverSilent
      | r :: rest =>
        match r with
        | .success tr => .tokens (poll_success_tokens now tr userInfo)
        | .authorization_pending =>
          poll_device_code timeout now userInfo rest interval (elapsed + interval)
        | .slow_down =>
          poll_device_code timeout now userInfo rest (interval + 5) (elapsed + interval)
        | .expired_token => .deviceCodeExpired
        | .authorization_declined => .authorizationDeclined
        | .other d => .authFailed d
    else .timedOut

/-- GraphClient._get_user_path of mcp_m365/graph/client.py: no token falls
back to me (the request fails at the auth check anyway); a token with a
falsy refresh token and a truthy user_email means the client-credentials
grant, acting as that user; otherwise the delegated grant, acting as me. -/
def get_user_path (tokens : Option Sm.Tokens) : String :=
  match tokens with
  | none => "me"
  | some t =>
    if (t.refresh_token == "") && pyTruthy t.user_email then
      "users/" ++ pyStr t.user_email
    else "me"

/-- Helper: decoding a serialized list of strings recovers the list. -/
theorem strList_map (l : List String) :
    strList (l.map Json.str) = Except.ok l := by
  induction l with
  | nil => rfl
  | cons x xs ih => simp [strList, Json.asStr, ih, bind, Except.bind, pure, Except.pure]

/-- Helper: from_dict inverts to_dict field by field. -/
theorem from_dict_to_dict (t : TokenSet) :
    TokenSet.from_dict (TokenSet.to_dict t) = .ok t := by
  cases t with
  | mk a rt ea tt sc ue un =>
    cases ue <;> cases un <;>
      simp [TokenSet.from_dict, TokenSet.to_dict, Json.item, Json.getDef,
        Json.asStr, Json.asInt, Json.asOptStr, optStrJson, Json.asStrList,
        List.lookup, strList_map, bind, Except.bind, pure, Except.pure]

end Mcp

/-! Concrete fixtures used by witness and counterexample theorems. -/

/-- A stored token record that is valid until instant 5000. -/
def tokensEx : Sm.Tokens :=
  { access_token := "at", refresh_token := "", token_type := "Bearer"
  , expires_at := .parses 5000, scope := "s"
  , user_email := some "user@example.com", user_name := none }

/-- A fully configured certificate-flow credential set. -/
def credsEx : Sm.Creds :=
  { client_id := some "app-id", tenant_id := some "tenant"
  , user_id := some "user@example.com"
  , cert_thumbprint := some "THUMB", private_key := some "PEM" }

/-- A credential set with a thumbprint but no private key: not configured,
yet every Found/NOT-FOUND flag of the diagnostic reads Found. -/
def credsNoKey : Sm.Creds :=
  { client_id := some "app-id", tenant_id := some "tenant"
  , user_id := some "user@example.com"
  , cert_thumbprint := some "THUMB", private_key := none }

/-- A token-set record for the encrypted-file store. -/
def tokenSetEx : Mcp.TokenSet :=
  { access_token := "at", refresh_token := "rt", expires_at := 1000
  , token_type := "Bearer", scope := ["offline_access", "User.Read"]
  , user_email := some "user@example.com", user_name := none }

/-- A 200 token-endpoint response body. -/
def respEx : Sm.TokenResponse :=
  { access_token := "new-at", token_type := some "Bearer"
  , expires_in := some 3600, scope := none, refresh_token := none }

/-! Helper lemmas shared by the claim theorems. -/

/-- Helper: Sm authenticate performs at most one token-endpoint call. -/
theorem Sm.authenticate_calls_le_one (c : Sm.Creds) (now : Int) (jti : String)
    (resp : Except String Sm.TokenResponse) :
    (Sm.authenticate c now jti resp).2 ≤ 1 := by
  unfold Sm.authenticate
  repeat' split
  all_goals simp

/-- Helper: when Sm get_valid_tokens returns a token, that token is the one
left in the store, and at most one token-endpoint call was made. -/
theorem Sm.get_valid_tokens_post (c : Sm.Creds) (stored : Option Sm.Tokens)
    (now : Int) (jti : String) (resp : Except String Sm.TokenResponse)
    (t : Sm.Tokens)
    (h : (Sm.get_valid_tokens c stored now jti resp).1 = .ok (some t)) :
    (Sm.get_valid_tokens c stored now jti resp).2.1 = some t
    ∧ (Sm.get_valid_tokens c stored now jti resp).2.2 ≤ 1 := by
  have hc := Sm.authenticate_calls_le_one c now jti resp
  rcases ha : Sm.authenticate c now jti resp with ⟨r, n⟩
  rw [ha] at hc
  rcases stored with _ | t0
  · cases r with
    | error e => simp [Sm.get_valid_tokens, ha] at h
    | ok nt =>
      simp [Sm.get_valid_tokens, ha] at h ⊢
      exact ⟨h, hc⟩
  · cases he : t0.is_expired now with
    | error e => simp [Sm.get_valid_tokens, he] at h
    | ok b =>
      cases b with
      | false =>
        simp [Sm.get_valid_tokens, he] at h ⊢
        simp [h]
      | true =>
        cases r with
        | error e => simp [Sm.get_valid_tokens, he, ha] at h
        | ok nt =>
          simp [Sm.get_valid_tokens, he, ha] at h ⊢
          exact ⟨h, hc⟩

/-! The claim theorems. -/

/-- C1: for every profile whose stored token record is present and not
expired, get_valid_tokens returns that record unchanged and performs no
token-endpoint network call (in both source revisions); consequently, when
a first call returns a token that is still unexpired at the time of a
second call (no intervening expiry), the second call is a cache hit with
zero calls and the two calls together perform at most one token-endpoint
call. -/
theorem C1_cached_valid_token_fast_path :
    (∀ (c : Sm.Creds) (t : Sm.Tokens) (now : Int) (jti : String)
        (resp : Except String Sm.TokenResponse),
        t.is_expired now = .ok false →
        Sm.get_valid_tokens c (some t) now jti resp = (.ok (some t), some t, 0))
  ∧ (∀ (t : Sm.Tokens) (now : Int) (resp : Except Unit Sm.TokenResponse)
        (ui : Option (Option String × Option String)),
        t.is_expired now = .ok false →
        Mcp.get_valid_tokens (some t) now resp ui = (.ok (some t), some t, 0))
  ∧ (∀ (c : Sm.Creds) (stored : Option Sm.Tokens) (now1 : Int) (jti1 : String)
        (resp1 : Except String Sm.TokenResponse) (t : Sm.Tokens) (now2 : Int)
        (jti2 : String) (resp2 : Except String Sm.TokenResponse),
        (Sm.get_valid_tokens c stored now1 jti1 resp1).1 = .ok (some t) →
        t.is_expired now2 = .ok false →
        Sm.get_valid_tokens c (Sm.get_valid_tokens c stored now1 jti1 resp1).2.1
            now2 jti2 resp2 = (.ok (some t), some t, 0)
        ∧ (Sm.get_valid_tokens c stored now1 jti1 resp1).2.2
          + (Sm.get_valid_tokens c (Sm.get_valid_tokens c stored now1 jti1 resp1).2.1
              now2 jti2 resp2).2.2 ≤ 1) := by
  refine ⟨?_, ?_, ?_⟩
  · intro c t now jti resp h
    simp [Sm.get_valid_tokens, h]
  · intro t now resp ui h
    simp [Mcp.get_valid_tokens, h]
  · intro c stored now1 jti1 resp1 t now2 jti2 resp2 h1 h2
    obtain ⟨hs, hn⟩ := Sm.get_valid_tokens_post c stored now1 jti1 resp1 t h1
    rw [hs]
    have hfast : Sm.get_valid_tokens c (some t) now2 jti2 resp2
        = (.ok (some t), some t, 0) := by
      simp [Sm.get_valid_tokens, h2]
    refine ⟨hfast, ?_⟩
    rw [hfast]
    simpa using hn

/-- C1 witness: the fast path at a concrete valid token and frozen clock. -/
theorem C1_cached_valid_token_fast_path_witness :
    Sm.get_valid_tokens credsEx (some tokensEx) 0 "jti" (.error "down")
      = (.ok (some tokensEx), some tokensEx, 0)
    ∧ Mcp.get_valid_tokens (some tokensEx) 0 (.error ()) none
      = (.ok (some tokensEx), some tokensEx, 0) :=
  ⟨C1_cached_valid_token_fast_path.1 credsEx tokensEx 0 "jti" (.error "down") rfl,
   C1_cached_valid_token_fast_path.2.1 tokensEx 0 (.error ()) none rfl⟩

/-- C2: the claim says load never raises on any persisted artifact.  The
keychain-backed TokenStore.load of sm_mcp_m365_python violates it: an
artifact holding the two-character JSON text of an empty array decodes to a
non-dict, from_dict calls .get on it, and the resulting AttributeError is
not in the caught (json.JSONDecodeError, KeyError) tuple, so load raises.
The encrypted-file TokenStore.load of mcp_m365 catches every exception and
returns None on the analogous payload, as the claim demands. -/
theorem C2_load_nondict_artifact_raises :
    Sm.TokenStore.load (.jsonNonDict "[]") = .error .attributeError
    ∧ Mcp.TokenStore.load Except.ok (some (Json.arr [])) = .ok none :=
  ⟨rfl, rfl⟩

/-- C3: save followed by load round-trips every token record losslessly,
for any cipher whose decryption inverts its encryption (the documented
contract of the external Fernet cipher). -/
theorem C3_token_store_roundtrip {β : Type} (enc : Json → β)
    (dec : β → Except PyExc Json) (hdec : ∀ j, dec (enc j) = .ok j)
    (t : Mcp.TokenSet) :
    Mcp.TokenStore.load dec (Mcp.TokenStore.save enc t) = .ok (some t) := by
  simp [Mcp.TokenStore.load, Mcp.TokenStore.save, hdec, Mcp.from_dict_to_dict,
    bind, Except.bind]

/-- C3 witness: the round trip at a concrete record, with the identity
cipher standing in for Fernet. -/
theorem C3_token_store_roundtrip_witness :
    Mcp.TokenStore.load Except.ok (Mcp.TokenStore.save id tokenSetEx)
      = .ok (some tokenSetEx) :=
  C3_token_store_roundtrip id Except.ok (fun _ => rfl) tokenSetEx

/-- C4: a candidate profile outside the statically configured set makes
set_active_profile raise (the source raises ValueError; the spec calls this
InvalidProfile) and leaves the persisted active-profile marker exactly as
it was. -/
theorem C4_invalid_profile_rejected (p : String) (marker : Option String)
    (h : p ∉ CREDENTIAL_PROFILES) :
    set_active_profile p marker = (.error .valueError, marker) := by
  simp [set_active_profile, h]

/-- C4 witness: the profile bogus is rejected and the marker keeps its
previous content. -/
theorem C4_invalid_profile_rejected_witness :
    set_active_profile "bogus" (some "SM") = (.error .valueError, some "SM") :=
  C4_invalid_profile_rejected "bogus" (some "SM") (by decide)

/-- Helper: a configured certificate credential set has a truthy private
key (is_configured requires auth_mode certificate, which requires both the
thumbprint and the key). -/
theorem Sm.is_configured_key (c : Sm.Creds) (h : Sm.is_configured c = true) :
    pyTruthy c.private_key = true := by
  unfold Sm.is_configured Sm.auth_mode at h
  cases hk : pyTruthy c.private_key
  · rw [hk] at h
    simp at h
  · rfl

/-- C5: on a successful acquisition the minted record stores its expiry as
the acquisition instant plus expires_in minus the 300-second safety margin;
a record whose expiry parses to an instant makes is_expired a plain
comparison of that instant with now; and a record whose stored instant lies
in the past is treated as expired by get_valid_tokens, which then runs a
fresh acquisition (authenticate) instead of returning the stale record. -/
theorem C5_expiry_margin_and_expired_reauth :
    (∀ (c : Sm.Creds) (now : Int) (jti : String) (r : Sm.TokenResponse),
        Sm.is_configured c = true →
        Sm.authenticate c now jti (.ok r) = (.ok (Sm.mint c now r), 1)
        ∧ (Sm.mint c now r).expires_at = .parses (now + (r.expires_in.getD 3600 - 300)))
  ∧ (∀ (tk : Sm.Tokens) (e now : Int), tk.expires_at = .parses e →
        tk.is_expired now = .ok (decide (e ≤ now)))
  ∧ (∀ (c : Sm.Creds) (tk : Sm.Tokens) (e now : Int) (jti : String)
        (resp : Except String Sm.TokenResponse),
        tk.expires_at = .parses e → e < now →
        Sm.get_valid_tokens c (some tk) now jti resp
          = (match Sm.authenticate c now jti resp with
             | (.ok nt, n) => (.ok (some nt), some nt, n)
             | (.error err, n) => (.error err, some tk, n))) := by
  refine ⟨?_, ?_, ?_⟩
  · intro c now jti r h
    have hk := Sm.is_configured_key c h
    exact ⟨by simp [Sm.authenticate, Sm.create_jwt_assertion, h, hk], rfl⟩
  · intro tk e now h
    simp [Sm.Tokens.is_expired, Sm.Tokens.is_expired_body, fromisoformat, h,
      bind, Except.bind, pure, Except.pure, ge_iff_le]
  · intro c tk e now jti resp hpe hlt
    have hexp : tk.is_expired now = .ok true := by
      simp [Sm.Tokens.is_expired, Sm.Tokens.is_expired_body, fromisoformat, hpe,
        bind, Except.bind, pure, Except.pure]
      omega
    simp [Sm.get_valid_tokens, hexp]

/-- C5 witness: minting at instant 0 with expires_in 3600 stores expiry
3300; the concrete token expiring at 5000 is expired at 7000, and a call at
7000 runs one authentication attempt (here failing with the upstream error
attached) rather than returning the stale record. -/
theorem C5_expiry_margin_and_expired_reauth_witness :
    Sm.authenticate credsEx 0 "jti" (.ok respEx) = (.ok (Sm.mint credsEx 0 respEx), 1)
    ∧ (Sm.mint credsEx 0 respEx).expires_at = .parses 3300
    ∧ tokensEx.is_expired 7000 = .ok true
    ∧ Sm.get_valid_tokens credsEx (some tokensEx) 7000 "jti" (.error "down")
        = (.error (.runtimeError ("Authentication failed (certificate): down")),
           some tokensEx, 1) :=
  ⟨(C5_expiry_margin_and_expired_reauth.1 credsEx 0 "jti" respEx (by decide)).1,
   ((C5_expiry_margin_and_expired_reauth.1 credsEx 0 "jti" respEx (by decide)).2).trans
     (by decide),
   (C5_expiry_margin_and_expired_reauth.2.1 tokensEx 5000 7000 rfl).trans rfl,
   (C5_expiry_margin_and_expired_reauth.2.2 credsEx tokensEx 5000 7000 "jti"
     (.error "down") rfl (by decide)).trans rfl⟩

/-- C6: the device-code polling loop keeps polling on
authorization_pending with the interval unchanged; each slow_down adds the
fixed 5-second step to the interval (a strict increase) and keeps polling;
expired_token and authorization_declined end the loop with terminal
failures whatever responses would follow; and once the accumulated elapsed
time reaches the timeout budget the loop fails with the timeout error. -/
theorem C6_device_code_polling :
    (∀ (timeout now : Int) (ui : Option (Option String × Option String))
        (rest : List Mcp.PollResponse) (interval elapsed : Int),
        elapsed < timeout →
        Mcp.poll_device_code timeout now ui (.authorization_pending :: rest) interval elapsed
          = Mcp.poll_device_code timeout now ui rest interval (elapsed + interval))
  ∧ (∀ (timeout now : Int) (ui : Option (Option String × Option String))
        (rest : List Mcp.PollResponse) (interval elapsed : Int),
        elapsed < timeout →
        Mcp.poll_device_code timeout now ui (.slow_down :: rest) interval elapsed
          = Mcp.poll_device_code timeout now ui rest (interval + 5) (elapsed + interval)
        ∧ interval < interval + 5)
  ∧ (∀ (timeout now : Int) (ui : Option (Option String × Option String))
        (rest : List Mcp.PollResponse) (interval elapsed : Int),
        elapsed < timeout →
        Mcp.poll_device_code timeout now ui (.expired_token :: rest) interval elapsed
          = .deviceCodeExpired)
  ∧ (∀ (timeout now : Int) (ui : Option (Option String × Option String))
        (rest : List Mcp.PollResponse) (interval elapsed : Int),
        elapsed < timeout →
        Mcp.poll_device_code timeout now ui (.authorization_declined :: rest) interval elapsed
          = .authorizationDeclined)
  ∧ (∀ (timeout now : Int) (ui : Option (Option String × Option String))
        (responses : List Mcp.PollResponse) (interval elapsed : Int),
        timeout ≤ elapsed →
        Mcp.poll_device_code timeout now ui responses interval elapsed = .timedOut) := by
  refine ⟨?_, ?_, ?_, ?_, ?_⟩
  · intro timeout now ui rest interval elapsed h
    simp [Mcp.poll_device_code, h]
  · intro timeout now ui rest interval elapsed h
    exact ⟨by simp [Mcp.poll_device_code, h], by omega⟩
  · intro timeout now ui rest interval elapsed h
    simp [Mcp.poll_device_code, h]
  · intro timeout now ui rest interval elapsed h
    simp [Mcp.poll_device_code, h]
  · intro timeout now ui responses interval elapsed h
    have h2 : ¬ elapsed < timeout := not_lt.mpr h
    cases responses <;> simp [Mcp.poll_device_code, h2]

/-- C6 witness: each polling behaviour exercised at the default 5-second
interval and 300-second budget. -/
theorem C6_device_code_polling_witness :
    Mcp.poll_device_code 300 0 none [.authorization_pending] 5 0
      = Mcp.poll_device_code 300 0 none [] 5 (0 + 5)
    ∧ (Mcp.poll_device_code 300 0 none [.slow_down] 5 0
         = Mcp.poll_device_code 300 0 none [] (5 + 5) (0 + 5) ∧ (5:Int) < 5 + 5)
    ∧ Mcp.poll_device_code 300 0 none [.expired_token, .authorization_pending] 5 0
      = .deviceCodeExpired
    ∧ Mcp.poll_device_code 300 0 none [.authorization_declined, .slow_down] 5 0
      = .authorizationDeclined
    ∧ Mcp.poll_device_code 300 0 none [.authorization_pending] 5 300 = .timedOut :=
  ⟨C6_device_code_polling.1 300 0 none [] 5 0 (by decide),
   C6_device_code_polling.2.1 300 0 none [] 5 0 (by decide),
   C6_device_code_polling.2.2.1 300 0 none [.authorization_pending] 5 0 (by decide),
   C6_device_code_polling.2.2.2.1 300 0 none [.slow_down] 5 0 (by decide),
   C6_device_code_polling.2.2.2.2 300 0 none [.authorization_pending] 5 300 (by decide)⟩

/-- C7: with a private key available, create_jwt_assertion succeeds and the
assertion it signs carries the certificate thumbprint as the x5t#S256
header, iss and sub both equal to the client_id, aud equal to the tenant
token endpoint URL, and exp exactly nbf plus 600 seconds; two assertions
built at the same frozen clock with the same credentials differ only in
their jti claim. -/
theorem C7_jwt_assertion_shape (c : Sm.Creds) (now : Int) (jti1 jti2 : String)
    (hkey : pyTruthy c.private_key = true) :
    Sm.create_jwt_assertion c now jti1 = .ok (Sm.build_assertion c now jti1)
    ∧ (Sm.build_assertion c now jti1).x5t_s256 = c.cert_thumbprint
    ∧ (Sm.build_assertion c now jti1).iss = c.client_id
    ∧ (Sm.build_assertion c now jti1).sub = c.client_id
    ∧ (Sm.build_assertion c now jti1).aud = Sm.token_url c.tenant_id
    ∧ (Sm.build_assertion c now jti1).exp = (Sm.build_assertion c now jti1).nbf + 600
    ∧ { Sm.build_assertion c now jti1 with jti := jti2 } = Sm.build_assertion c now jti2 := by
  refine ⟨?_, rfl, rfl, rfl, rfl, rfl, rfl⟩
  simp [Sm.create_jwt_assertion, hkey]

/-- C7 witness: two assertions built at instant 0 with distinct jti values.
-/
theorem C7_jwt_assertion_shape_witness :
    Sm.create_jwt_assertion credsEx 0 "jti-one" = .ok (Sm.build_assertion credsEx 0 "jti-one")
    ∧ { Sm.build_assertion credsEx 0 "jti-one" with jti := "jti-two" }
        = Sm.build_assertion credsEx 0 "jti-two"
    ∧ (Sm.build_assertion credsEx 0 "jti-one").exp
        = (Sm.build_assertion credsEx 0 "jti-one").nbf + 600 :=
  ⟨(C7_jwt_assertion_shape credsEx 0 "jti-one" "jti-two" rfl).1,
   (C7_jwt_assertion_shape credsEx 0 "jti-one" "jti-two" rfl).2.2.2.2.2.2,
   (C7_jwt_assertion_shape credsEx 0 "jti-one" "jti-two" rfl).2.2.2.2.2.1⟩

/-- A credential set with nothing configured. -/
def credsNone : Sm.Creds := {}

/-- A fully configured shared-secret credential set for the mcp_m365
revision. -/
def mcpCredsEx : Mcp.Creds :=
  { client_id := some "a", client_secret := some "s", tenant_id := some "t" }

/-- A token record whose stored expiry string is unreadable. -/
def tokensBad : Sm.Tokens :=
  { access_token := "at", refresh_token := "", token_type := "Bearer"
  , expires_at := .malformed, scope := "" }

/-- C8 counterexample: a profile with client_id, tenant_id, user_id and a
certificate thumbprint present but the private key absent is not
configured, yet the CredentialsMissing diagnostic that token acquisition
raises marks every item it enumerates as Found, so the message does not
enumerate the absent secret-or-certificate material: the claim that the
message enumerates exactly which of the three components is absent fails
at this input. -/
theorem C8_diagnostic_counterexample :
    Sm.is_configured credsNoKey = false
    ∧ (pyTruthy credsNoKey.cert_thumbprint && pyTruthy credsNoKey.private_key) = false
    ∧ Sm.authenticate credsNoKey 0 "jti" (.error "unused")
        = (.error (.credentialsMissing true true true true), 0) :=
  ⟨rfl, rfl, rfl⟩

/-- C8 amended: the credential set is reported as configured iff client_id
and tenant_id are present together with the authentication material the
revision supports (client secret in mcp_m365; certificate thumbprint plus
private key in sm_mcp_m365_python); when not configured, token acquisition
in the certificate revision fails before any token-endpoint call with a
CredentialsMissing diagnostic whose Found/NOT-FOUND flags report the
truthiness of client_id, tenant_id, user_id and the certificate thumbprint
only (the private key is not reflected, and the mcp_m365 revision raises a
generic message that enumerates nothing). -/
theorem C8_configured_iff_and_diagnostic :
    (∀ c : Mcp.Creds, Mcp.is_configured c = true ↔
        (pyTruthy c.client_id = true ∧ pyTruthy c.tenant_id = true
          ∧ pyTruthy c.client_secret = true))
  ∧ (∀ c : Sm.Creds, Sm.is_configured c = true ↔
        (pyTruthy c.client_id = true ∧ pyTruthy c.tenant_id = true
          ∧ (pyTruthy c.cert_thumbprint = true ∧ pyTruthy c.private_key = true)))
  ∧ (∀ (c : Sm.Creds) (now : Int) (jti : String)
        (resp : Except String Sm.TokenResponse),
        Sm.is_configured c = false →
        Sm.authenticate c now jti resp
          = (.error (.credentialsMissing (pyTruthy c.client_id) (pyTruthy c.tenant_id)
              (pyTruthy c.user_id) (pyTruthy c.cert_thumbprint)), 0)) := by
  refine ⟨?_, ?_, ?_⟩
  · intro c
    simp only [Mcp.is_configured, Bool.and_eq_true]
    tauto
  · intro c
    cases hk : pyTruthy c.cert_thumbprint <;> cases hp : pyTruthy c.private_key <;>
      simp [Sm.is_configured, Sm.auth_mode, hk, hp, Bool.and_eq_true, and_assoc]
  · intro c now jti resp h
    simp [Sm.authenticate, h]

/-- C8 amended witness: an entirely unconfigured profile fails fast with a
diagnostic in which every flag reads NOT FOUND, and the configured fixture
satisfies both sides of the certificate iff. -/
theorem C8_configured_iff_and_diagnostic_witness :
    Sm.authenticate credsNone 0 "jti" (.error "unused")
      = (.error (.credentialsMissing false false false false), 0)
    ∧ Mcp.is_configured mcpCredsEx = true
    ∧ Sm.is_configured credsEx = true :=
  ⟨C8_configured_iff_and_diagnostic.2.2 credsNone 0 "jti" (.error "unused") rfl,
   (C8_configured_iff_and_diagnostic.1 _).mpr ⟨rfl, rfl, rfl⟩,
   (C8_configured_iff_and_diagnostic.2.1 credsEx).mpr ⟨rfl, rfl, rfl, rfl⟩⟩

/-- C9: the Graph acting-as prefix follows the grant that produced the
token.  In mcp_m365, a token without a refresh token but with a known user
routes to users/{id}, and any token with a refresh token (the delegated
device-code grant requests offline_access, so its responses carry one)
routes to me; a token minted by the device-code success branch from a
response carrying a non-empty refresh token therefore routes to me, while
a token minted by the client-credentials flow carries no refresh token and
the configured target user, so it routes to users/{id}; the
sm_mcp_m365_python Graph client likewise acts as /users/{user_id}. -/
theorem C9_acting_as_path :
    (∀ t : Sm.Tokens, t.refresh_token = "" → pyTruthy t.user_email = true →
        Mcp.get_user_path (some t) = "users/" ++ pyStr t.user_email)
  ∧ (∀ t : Sm.Tokens, t.refresh_token ≠ "" → Mcp.get_user_path (some t) = "me")
  ∧ (∀ (now : Int) (r : Sm.TokenResponse)
        (ui : Option (Option String × Option String)) (rt : String),
        r.refresh_token = some rt → rt ≠ "" →
        Mcp.get_user_path (some (Mcp.poll_success_tokens now r ui)) = "me")
  ∧ (∀ (c : Sm.Creds) (now : Int) (r : Sm.TokenResponse),
        (Sm.mint c now r).refresh_token = "" ∧ (Sm.mint c now r).user_email = c.user_id)
  ∧ (∀ (c : Sm.Creds) (now : Int) (r : Sm.TokenResponse),
        pyTruthy c.user_id = true →
        Mcp.get_user_path (some (Sm.mint c now r)) = "users/" ++ pyStr c.user_id)
  ∧ (∀ u : Option String, pyTruthy u = true →
        Sm.user_path u = .ok ("/users/" ++ pyStr u)) := by
  refine ⟨?_, ?_, ?_, ?_, ?_, ?_⟩
  · intro t h hu
    simp [Mcp.get_user_path, h, hu]
  · intro t h
    simp [Mcp.get_user_path, h]
  · intro now r ui rt hr hne
    cases ui with
    | none => simp [Mcp.get_user_path, Mcp.poll_success_tokens, Mcp.fetch_user_info, hr, hne]
    | some p =>
      cases p with
      | mk em nm =>
        simp [Mcp.get_user_path, Mcp.poll_success_tokens, Mcp.fetch_user_info, hr, hne]
  · intro c now r
    exact ⟨rfl, rfl⟩
  · intro c now r h
    simp [Mcp.get_user_path, Sm.mint, h]
  · intro u h
    simp [Sm.user_path, h]

/-- C9 witness: the concrete app-only token routes to the configured user,
a delegated device-code token carrying a refresh token routes to me, and
the certificate-flow Graph client acts as the configured user. -/
theorem C9_acting_as_path_witness :
    Mcp.get_user_path (some tokensEx) = "users/" ++ pyStr tokensEx.user_email
    ∧ Mcp.get_user_path (some (Mcp.poll_success_tokens 0
        { respEx with refresh_token := some "rt" } none)) = "me"
    ∧ Sm.user_path (some "user@example.com") = .ok ("/users/user@example.com") :=
  ⟨C9_acting_as_path.1 tokensEx rfl rfl,
   C9_acting_as_path.2.2.1 0 { respEx with refresh_token := some "rt" } none "rt" rfl
     (by decide),
   (C9_acting_as_path.2.2.2.2.2 (some "user@example.com") rfl).trans rfl⟩

/-- C10: a token record whose stored expires_at string is malformed or
empty cannot be parsed, and is_expired answers True through its except
clause instead of letting the ValueError escape, so the record is treated
as expired and forces re-authentication. -/
theorem C10_malformed_expiry_treated_expired (tk : Sm.Tokens) (now : Int)
    (h : tk.expires_at = .malformed) :
    tk.is_expired now = .ok true := by
  simp [Sm.Tokens.is_expired, Sm.Tokens.is_expired_body, fromisoformat, h,
    bind, Except.bind]

/-- C10 witness: a concrete record with an unparseable expiry is reported
expired without an exception. -/
theorem C10_malformed_expiry_treated_expired_witness :
    Sm.Tokens.is_expired tokensBad 0 = .ok true :=
  C10_malformed_expiry_treated_expired tokensBad 0 rfl
